import Mathlib

/-!
# Payment and refund reconciliation core — verification development

Shallow embedding of the payment/refund subsystem of the MetAirflow-be
backend (`src/modules/payments/payments.service.js`,
`src/modules/payments/payments.controller.js`, and the `RefundService`
shipped alongside `src/services/email.service.js`), together with proofs
about its state machine.

The database slice the core touches is modelled as three tables
(`Lease`, `StripePayment`, `RefundRequest`).  External gateway calls
(Stripe) have no local state: their outcomes are passed in as parameters
(`intentStatus`, refund ids, fresh record ids, the clock `now` in
milliseconds).  `AppError(message, statusCode)` mirrors the service's
error type; fallible operations return `Except AppError`.
-/

set_option maxHeartbeats 1000000

namespace Payments

/-- `StripePayment.status` values (Prisma enum used by the service). -/
inductive PayState
  | pending
  | processing
  | requires_action
  | completed
  | failed
  | canceled
  | refunded
  deriving DecidableEq, Repr

/-- `Lease.status` values written or read by the payment core. -/
inductive LeaseStatus
  | PENDING
  | APPROVED
  | REJECTED
  | REFUNDED
  | COMPLETED
  deriving DecidableEq, Repr

/-- `Lease.paymentStatus` values written or read by the payment core. -/
inductive LeasePaymentStatus
  | unpaid
  | processing
  | paid
  | failed
  | refunded
  | canceled
  deriving DecidableEq, Repr

/-- `RefundRequest.status` values. -/
inductive RefundRequestStatus
  | PENDING
  | APPROVED
  | REJECTED
  deriving DecidableEq, Repr

/-- `status.toLowerCase()` as used in the AlreadyProcessed error message. -/
def RefundRequestStatus.lower : RefundRequestStatus → String
  | .PENDING => "pending"
  | .APPROVED => "approved"
  | .REJECTED => "rejected"

/-- Row of the `stripePayment` table (the payment ledger). -/
structure StripePayment where
  id : String
  bookingId : String
  userId : String
  amount : Nat
  currency : String
  paymentIntentId : String
  status : PayState
  completedAt : Option Nat
  refundedAt : Option Nat
  deriving DecidableEq, Repr

/-- Row of the `lease` table (the booking); only the slice the payment
core reads or writes. -/
structure Lease where
  id : String
  tenantId : String
  landlordId : String
  totalPrice : Nat
  status : LeaseStatus
  paymentStatus : LeasePaymentStatus
  cancelledAt : Option Nat
  cancellationReason : Option String
  deriving DecidableEq, Repr

/-- Row of the `refundRequest` table. -/
structure RefundRequest where
  id : String
  leaseId : String
  requestedBy : String
  landlordId : String
  amount : Nat
  reason : String
  status : RefundRequestStatus
  approvedAt : Option Nat
  rejectedAt : Option Nat
  landlordNote : Option String
  deriving DecidableEq, Repr

/-- The persistent state the payment core can read or write.  List order
is database order; Prisma's `findFirst` is `List.find?`. -/
structure Db where
  leases : List Lease
  payments : List StripePayment
  refundRequests : List RefundRequest
  deriving DecidableEq, Repr

/-- `AppError(message, statusCode)` from `src/utils/AppError`. -/
structure AppError where
  message : String
  statusCode : Nat
  deriving DecidableEq, Repr

/-- Prisma `update where {id}`; every call site in the service first
fetched the row, so the id is always present. -/
def updateLease (db : Db) (id : String) (f : Lease → Lease) : Db :=
  { db with leases := db.leases.map fun l => if l.id = id then f l else l }

def updatePayment (db : Db) (id : String) (f : StripePayment → StripePayment) : Db :=
  { db with payments := db.payments.map fun p => if p.id = id then f p else p }

def updateRefundRequest (db : Db) (id : String) (f : RefundRequest → RefundRequest) : Db :=
  { db with refundRequests :=
      db.refundRequests.map fun r => if r.id = id then f r else r }

/-! ## `createPaymentSheet` (payments.service.js)

The Stripe customer / ephemeral-key handling touches only the external
gateway and the `user` table, neither of which is part of the modelled
slice; `newIntentId` is the id of the PaymentIntent the gateway returns
and `newPaymentId` the fresh row id used when a record is created.  The
returned `String` is the `paymentId` field of the JS result. -/
def createPaymentSheet (db : Db) (bookingId userId : String)
    (stripeConfigured : Bool) (newIntentId newPaymentId : String) :
    Except AppError (Db × String) :=
  if ¬ stripeConfigured then
    .error ⟨"Payment service is not configured", 503⟩
  else
    match db.leases.find? (fun l => decide (l.id = bookingId)) with
    | none => .error ⟨"Booking not found", 404⟩
    | some booking =>
      if booking.tenantId ≠ userId then
        .error ⟨"Unauthorized access to booking", 403⟩
      else if booking.paymentStatus = .paid then
        .error ⟨"Booking already paid", 400⟩
      else
        match db.payments.find?
            (fun p => decide (p.bookingId = bookingId ∧ p.status = .pending)) with
        | some payment =>
          let db1 := updatePayment db payment.id fun p =>
            { p with paymentIntentId := newIntentId, amount := booking.totalPrice }
          .ok (db1, payment.id)
        | none =>
          let newPayment : StripePayment :=
            { id := newPaymentId, bookingId := booking.id, userId := userId
              amount := booking.totalPrice, currency := "myr"
              paymentIntentId := newIntentId, status := .pending
              completedAt := none, refundedAt := none }
          .ok ({ db with payments := db.payments ++ [newPayment] }, newPaymentId)

/-! ## `confirmPayment` (payments.service.js) -/

/-- Slice of the JS result object of `confirmPayment`. -/
structure ConfirmResult where
  paymentId : String
  bookingId : String
  amount : Nat
  status : PayState
  completedAt : Option Nat
  deriving DecidableEq, Repr

def charsHavePre : List Char → List Char → Bool
  | [], _ => true
  | _ :: _, [] => false
  | a :: as, b :: bs => decide (a = b) && charsHavePre as bs

/-- Characters of the second list before the first occurrence of `sep`
(the whole list when `sep` does not occur). -/
def takeUntilSep (sep : List Char) : List Char → List Char
  | [] => []
  | c :: cs => if charsHavePre sep (c :: cs) then [] else c :: takeUntilSep sep cs

/-- `paymentIntentId.split('_secret_')[0]`: the mobile client may send
a full client secret `pi_xxx_secret_yyy`, of which only the part before
`_secret_` names the intent. -/
def extractIntentId (s : String) : String := ⟨takeUntilSep "_secret_".data s.data⟩

/-- Synchronous confirmation path.  `intentStatus` is the status Stripe
reports for the retrieved PaymentIntent. -/
def confirmPayment (db : Db) (bookingId paymentIntentId userId : String)
    (intentStatus : String) (now : Nat) : Except AppError (Db × ConfirmResult) :=
  let actualPaymentIntentId := extractIntentId paymentIntentId
  if intentStatus ≠ "succeeded" then
    .error ⟨"Payment not successful", 400⟩
  else
    match db.payments.find?
        (fun p => decide (p.bookingId = bookingId ∧
                          p.paymentIntentId = actualPaymentIntentId)) with
    | none => .error ⟨"Payment record not found", 404⟩
    | some payment =>
      if payment.userId ≠ userId then
        .error ⟨"Unauthorized access to payment", 403⟩
      else
        let db1 := updatePayment db payment.id fun p =>
          { p with status := .completed, completedAt := some now }
        let db2 := updateLease db1 bookingId fun l =>
          { l with status := .APPROVED, paymentStatus := .paid }
        .ok (db2, ⟨payment.id, bookingId, payment.amount, .completed, some now⟩)

/-! ## `cancelPayment` (payments.service.js) -/

/-- Cancel a pending payment.  The Stripe-side cancellation is a gateway
call whose failure is swallowed (`catch` with a warning), so it has no
effect on the modelled state.  The returned `Bool` is the
`bookingCancelled` field of the JS result. -/
def cancelPayment (db : Db) (paymentIntentId userId : String) (now : Nat) :
    Except AppError (Db × Bool) :=
  match db.payments.find? (fun p => decide (p.paymentIntentId = paymentIntentId)) with
  | none => .error ⟨"Payment not found", 404⟩
  | some payment =>
    if payment.userId ≠ userId then
      .error ⟨"Unauthorized access to payment", 403⟩
    else if payment.status ≠ .pending then
      .error ⟨"Cannot cancel completed payment", 400⟩
    else
      let db1 := updatePayment db payment.id fun p => { p with status := .failed }
      let db2 :=
        match db.leases.find? (fun l => decide (l.id = payment.bookingId)) with
        | some booking =>
          if booking.status = .PENDING ∨ booking.status = .APPROVED then
            updateLease db1 payment.bookingId fun l =>
              { l with status := .REFUNDED, cancelledAt := some now
                       cancellationReason := some "Payment cancelled by user"
                       paymentStatus := .failed }
          else db1
        | none => db1
      .ok (db2, true)

/-! ## `requestRefund` (payments.service.js) -/

/-- Outcome of the refund-eligibility checks inside `requestRefund`:
`hoursSincePayment = floor((now - completedAt) / 3600000)`,
`daysSincePayment = floor(hoursSincePayment / 24)`; expired when
`daysSincePayment > 7`, auto-refund when `hoursSincePayment < 4`,
otherwise landlord approval is required. -/
inductive RefundDecision
  | AutoRefund
  | RequiresApproval
  deriving DecidableEq, Repr

def refundPolicy (completedAt now : Nat) : Except AppError RefundDecision :=
  let hoursSincePayment := (now - completedAt) / 3600000
  let daysSincePayment := hoursSincePayment / 24
  if daysSincePayment > 7 then
    .error ⟨"Refund window expired (must be within 7 days)", 400⟩
  else if hoursSincePayment < 4 then
    .ok .AutoRefund
  else
    .ok .RequiresApproval

/-- Result slice of `requestRefund`: either an immediate (auto) refund
or a pending-approval refund request id. -/
inductive RefundResult
  | auto (refundId : String) (amount : Nat)
  | pendingApproval (refundRequestId : String)
  deriving DecidableEq, Repr

/-- `stripeRefundId` is the refund id the gateway returns on the auto
path; `newRequestId` the fresh `RefundRequest` row id on the approval
path. -/
def requestRefund (db : Db) (bookingId userId : String) (reason : Option String)
    (now : Nat) (stripeRefundId newRequestId : String) :
    Except AppError (Db × RefundResult) :=
  match db.payments.find?
      (fun p => decide (p.bookingId = bookingId ∧ p.status = .completed)) with
  | none => .error ⟨"Payment not found or not completed", 404⟩
  | some payment =>
    if payment.userId ≠ userId then
      .error ⟨"Unauthorized access to payment", 403⟩
    else
      match refundPolicy (payment.completedAt.getD 0) now with
      | .error e => .error e
      | .ok .AutoRefund =>
        let db1 := updatePayment db payment.id fun p =>
          { p with status := .refunded, refundedAt := some now }
        let db2 := updateLease db1 bookingId fun l =>
          { l with status := .REFUNDED, paymentStatus := .refunded
                   cancelledAt := some now
                   cancellationReason :=
                     some (reason.getD "Refund requested within 4 hours") }
        .ok (db2, .auto stripeRefundId payment.amount)
      | .ok .RequiresApproval =>
        match db.refundRequests.find?
            (fun r => decide (r.leaseId = bookingId ∧ r.status = .PENDING)) with
        | some _ => .error ⟨"A pending refund request already exists", 400⟩
        | none =>
          let landlordId :=
            ((db.leases.find? (fun l => decide (l.id = payment.bookingId))).map
              (fun l => l.landlordId)).getD ""
          let req : RefundRequest :=
            { id := newRequestId, leaseId := bookingId, requestedBy := userId
              landlordId := landlordId, amount := payment.amount
              reason := reason.getD "Customer requested refund (> 4 hours)"
              status := .PENDING, approvedAt := none, rejectedAt := none
              landlordNote := none }
          .ok ({ db with refundRequests := db.refundRequests ++ [req] },
               .pendingApproval newRequestId)

/-! ## `processRefundRequest` (payments.service.js) -/

inductive ProcessResult
  | approved (refundId : String)
  | rejected
  deriving DecidableEq, Repr

def processRefundRequest (db : Db) (requestId landlordId : String) (approve : Bool)
    (notes : Option String) (now : Nat) (stripeRefundId : String) :
    Except AppError (Db × ProcessResult) :=
  match db.refundRequests.find? (fun r => decide (r.id = requestId)) with
  | none => .error ⟨"Refund request not found", 404⟩
  | some refundRequest =>
    if refundRequest.landlordId ≠ landlordId then
      .error ⟨"Unauthorized to process this request", 403⟩
    else if refundRequest.status ≠ .PENDING then
      .error ⟨"Request is already " ++ refundRequest.status.lower, 400⟩
    else if approve then
      match db.payments.find?
          (fun p => decide (p.bookingId = refundRequest.leaseId ∧
                            p.status = .completed)) with
      | none => .error ⟨"Original payment not found or not completed", 404⟩
      | some payment =>
        let db1 := updatePayment db payment.id fun p =>
          { p with status := .refunded, refundedAt := some now }
        let db2 := updateRefundRequest db1 requestId fun r =>
          { r with status := .APPROVED, approvedAt := some now, landlordNote := notes }
        let db3 := updateLease db2 refundRequest.leaseId fun l =>
          { l with status := .REFUNDED, paymentStatus := .refunded
                   cancelledAt := some now
                   cancellationReason :=
                     some ("Refund approved by landlord: " ++ notes.getD "") }
        .ok (db3, .approved stripeRefundId)
    else
      let db1 := updateRefundRequest db requestId fun r =>
        { r with status := .REJECTED, rejectedAt := some now, landlordNote := notes }
      .ok (db1, .rejected)

/-! ## Webhook handlers (payments.service.js) -/

def handlePaymentSuccess (db : Db) (intentId : String) (now : Nat) : Db :=
  match db.payments.find? (fun p => decide (p.paymentIntentId = intentId)) with
  | some payment =>
    if payment.status = .pending then
      let db1 := updatePayment db payment.id fun p =>
        { p with status := .completed, completedAt := some now }
      updateLease db1 payment.bookingId fun l =>
        { l with status := .APPROVED, paymentStatus := .paid }
    else db
  | none => db

def handlePaymentProcessing (db : Db) (intentId : String) : Db :=
  match db.payments.find? (fun p => decide (p.paymentIntentId = intentId)) with
  | some payment =>
    if payment.status = .pending then
      let db1 := updatePayment db payment.id fun p => { p with status := .processing }
      updateLease db1 payment.bookingId fun l => { l with paymentStatus := .processing }
    else db
  | none => db

/-- `handlePaymentFailure` updates any found record, with no check of
its current status, and never touches the lease. -/
def handlePaymentFailure (db : Db) (intentId : String) : Db :=
  match db.payments.find? (fun p => decide (p.paymentIntentId = intentId)) with
  | some payment => updatePayment db payment.id fun p => { p with status := .failed }
  | none => db

def handlePaymentCanceled (db : Db) (intentId : String) : Db :=
  match db.payments.find? (fun p => decide (p.paymentIntentId = intentId)) with
  | some payment =>
    if payment.status = .pending then
      let db1 := updatePayment db payment.id fun p => { p with status := .canceled }
      updateLease db1 payment.bookingId fun l => { l with paymentStatus := .canceled }
    else db
  | none => db

def handlePaymentRequiresAction (db : Db) (intentId : String) : Db :=
  match db.payments.find? (fun p => decide (p.paymentIntentId = intentId)) with
  | some payment =>
    if payment.status = .pending then
      updatePayment db payment.id fun p => { p with status := .requires_action }
    else db
  | none => db

/-- `charge.refunded` handler: sets the payment to `refunded` (no
status guard) and the lease to `REJECTED` / `refunded`. -/
def handleRefund (db : Db) (chargePaymentIntent : String) (now : Nat) : Db :=
  match db.payments.find? (fun p => decide (p.paymentIntentId = chargePaymentIntent)) with
  | some payment =>
    let db1 := updatePayment db payment.id fun p =>
      { p with status := .refunded, refundedAt := some now }
    updateLease db1 payment.bookingId fun l =>
      { l with status := .REJECTED, paymentStatus := .refunded }
  | none => db

/-- Inbound Stripe webhook event, carrying the payment-intent id of its
`data.object` (for `charge.refunded`, the charge's `payment_intent`). -/
inductive StripeEvent
  | succeeded (intentId : String)
  | processing (intentId : String)
  | payment_failed (intentId : String)
  | canceled (intentId : String)
  | requires_action (intentId : String)
  | charge_refunded (paymentIntent : String)
  | other (eventType : String)
  deriving DecidableEq, Repr

/-- `handleWebhook` event dispatcher of the service. -/
def handleWebhook (db : Db) (event : StripeEvent) (now : Nat) : Db :=
  match event with
  | .succeeded i => handlePaymentSuccess db i now
  | .processing i => handlePaymentProcessing db i
  | .payment_failed i => handlePaymentFailure db i
  | .canceled i => handlePaymentCanceled db i
  | .requires_action i => handlePaymentRequiresAction db i
  | .charge_refunded i => handleRefund db i now
  | .other _ => db

/-! ## Webhook controller (payments.controller.js) -/

/-- The `{received: true}` acknowledgement body. -/
structure WebhookAck where
  received : Bool
  deriving DecidableEq, Repr

/-- `exports.handleWebhook`: configuration checks, signature-header
check, then `stripe.webhooks.constructEvent` (a pure gateway-side
verification whose outcome is the `constructedEvent` parameter: the
parsed event on success, the thrown message on signature failure), and
only then the service dispatcher.  Thrown `AppError`s become non-2xx
responses via the error middleware. -/
def controllerHandleWebhook (db : Db)
    (webhookSecretConfigured stripeKeyConfigured : Bool)
    (signatureHeader : Option String)
    (constructedEvent : Except String StripeEvent) (now : Nat) :
    Except AppError (Db × WebhookAck) :=
  if ¬ webhookSecretConfigured then
    .error ⟨"Webhook secret not configured", 500⟩
  else if ¬ stripeKeyConfigured then
    .error ⟨"Stripe secret key not configured", 500⟩
  else
    match signatureHeader with
    | none => .error ⟨"Missing stripe-signature header", 400⟩
    | some _ =>
      match constructedEvent with
      | .error msg => .error ⟨"Webhook Error: " ++ msg, 400⟩
      | .ok event => .ok (handleWebhook db event now, ⟨true⟩)

/-! ## `RefundService.createRefundRequest` (refund service beside
email.service.js) -/

/-- Tenant-side refund-request creation of the standalone
`RefundService`.  It checks lease existence, tenant ownership, that the
lease is not already `REFUNDED`, and that a completed payment exists —
but performs no check for an existing PENDING request.  The created
row's `status` is not given at the call site; it is the Prisma schema
default.  Modelled from the spec: the schema file is not in the
repository slice, and §3 gives `RefundRequest.status ∈ {PENDING,
APPROVED, REJECTED}` with creation `status=PENDING`, so the default is
taken to be `PENDING`. -/
def createRefundRequest (db : Db) (leaseId userId : String) (reason : String)
    (newRequestId : String) : Except String (Db × String) :=
  match db.leases.find? (fun l => decide (l.id = leaseId)) with
  | none => .error "Booking not found"
  | some lease =>
    if lease.tenantId ≠ userId then .error "Unauthorized"
    else if lease.status = .REFUNDED then .error "Already refunded"
    else
      match db.payments.find?
          (fun p => decide (p.bookingId = leaseId ∧ p.status = .completed)) with
      | none => .error "No completed payment found"
      | some completedPayment =>
        let req : RefundRequest :=
          { id := newRequestId, leaseId := leaseId, requestedBy := userId
            landlordId := lease.landlordId, amount := completedPayment.amount
            reason := reason, status := .PENDING, approvedAt := none
            rejectedAt := none, landlordNote := none }
        .ok ({ db with refundRequests := db.refundRequests ++ [req] }, newRequestId)

/-! ## Reachability

`Step db db'` holds when one of the mutating payment-core operations
(the synchronous paths `confirmPayment` / `cancelPayment`, the refund
workflow `requestRefund` / `processRefundRequest`, or a webhook
delivery) turns state `db` into state `db'`.  An operation that throws
leaves the state unchanged (every write in the source happens after the
last throw of its operation), so only `.ok` outcomes produce steps. -/
inductive Step : Db → Db → Prop
  | confirm (db db' : Db) (bookingId intentId userId intentStatus : String)
      (now : Nat) (r : ConfirmResult)
      (h : confirmPayment db bookingId intentId userId intentStatus now = .ok (db', r)) :
      Step db db'
  | cancel (db db' : Db) (intentId userId : String) (now : Nat) (b : Bool)
      (h : cancelPayment db intentId userId now = .ok (db', b)) :
      Step db db'
  | refund (db db' : Db) (bookingId userId : String) (reason : Option String)
      (now : Nat) (rid nrid : String) (r : RefundResult)
      (h : requestRefund db bookingId userId reason now rid nrid = .ok (db', r)) :
      Step db db'
  | process (db db' : Db) (requestId landlordId : String) (approve : Bool)
      (notes : Option String) (now : Nat) (rid : String) (r : ProcessResult)
      (h : processRefundRequest db requestId landlordId approve notes now rid = .ok (db', r)) :
      Step db db'
  | webhook (db : Db) (ev : StripeEvent) (now : Nat) :
      Step db (handleWebhook db ev now)

/-- The booking right after `createPaymentSheet`: lease `PENDING` /
`unpaid`, one `pending` payment record, no refund requests. -/
def lease0 : Lease :=
  { id := "L1", tenantId := "T1", landlordId := "LL1", totalPrice := 100
    status := .PENDING, paymentStatus := .unpaid
    cancelledAt := none, cancellationReason := none }

def payment0 : StripePayment :=
  { id := "P1", bookingId := "L1", userId := "T1", amount := 100
    currency := "myr", paymentIntentId := "pi_1", status := .pending
    completedAt := none, refundedAt := none }

def initDb : Db := ⟨[lease0], [payment0], []⟩

/-- States the payment core's operations can produce from the
post-creation state. -/
def Reachable (db : Db) : Prop := Relation.ReflTransGen Step initDb db

/-- Inductive invariant carried through `Step`: the state keeps its one
lease and one payment record, a still-`pending` payment record implies
the lease was never moved off `PENDING`, an `APPROVED` lease is `paid`,
and a `REFUNDED` lease has paymentStatus `refunded`, `canceled` or
`failed` (the last produced by `cancelPayment`). -/
def StrongInv (db : Db) : Prop :=
  ∃ l p, db.leases = [l] ∧ db.payments = [p] ∧
    (p.status = .pending → l.status = .PENDING) ∧
    (l.status = .APPROVED → l.paymentStatus = .paid) ∧
    (l.status = .REFUNDED →
      l.paymentStatus = .refunded ∨ l.paymentStatus = .canceled ∨
        l.paymentStatus = .failed)

/-- State after `cancelPayment` on `initDb`. -/
def cancelledLease : Lease :=
  { lease0 with status := .REFUNDED, cancelledAt := some 0
                cancellationReason := some "Payment cancelled by user"
                paymentStatus := .failed }

def cancelledDb : Db := ⟨[cancelledLease], [{ payment0 with status := .failed }], []⟩

/-- A paid booking: lease `APPROVED` / `paid` with a `completed`
payment record. -/
def leasePaid : Lease :=
  { id := "L1", tenantId := "T1", landlordId := "LL1", totalPrice := 100
    status := .APPROVED, paymentStatus := .paid
    cancelledAt := none, cancellationReason := none }

def paymentCompleted : StripePayment :=
  { id := "P1", bookingId := "L1", userId := "T1", amount := 100
    currency := "myr", paymentIntentId := "pi_1", status := .completed
    completedAt := some 0, refundedAt := none }

def paidDb : Db := ⟨[leasePaid], [paymentCompleted], []⟩

/-- A paid booking that already carries a PENDING refund request. -/
def pendingReq : RefundRequest :=
  { id := "RR1", leaseId := "L1", requestedBy := "T1", landlordId := "LL1"
    amount := 100, reason := "first request", status := .PENDING
    approvedAt := none, rejectedAt := none, landlordNote := none }

def dbWithPending : Db := ⟨[leasePaid], [paymentCompleted], [pendingReq]⟩

/-- The second request `RefundService.createRefundRequest` creates on
top of `dbWithPending`. -/
def secondReq : RefundRequest :=
  { id := "RR2", leaseId := "L1", requestedBy := "T1", landlordId := "LL1"
    amount := 100, reason := "again", status := .PENDING
    approvedAt := none, rejectedAt := none, landlordNote := none }

/-- `initDb` with its payment record in `processing` instead of
`pending`. -/
def processingDb : Db := ⟨[lease0], [{ payment0 with status := .processing }], []⟩

/-- Whether a controller outcome is a non-2xx rejection (the error
middleware maps a thrown `AppError` to its `statusCode`). -/
def rejectedNon2xx : Except AppError (Db × WebhookAck) → Prop
  | .error e => 400 ≤ e.statusCode
  | .ok _ => False

/-- A booking whose payment has already been refunded. -/
def refundedLease : Lease :=
  { leasePaid with status := .REFUNDED, paymentStatus := .refunded }

def refundedPayment : StripePayment :=
  { paymentCompleted with status := .refunded, refundedAt := some 2 }

def refundedDb : Db := ⟨[refundedLease], [refundedPayment], []⟩

/-! ## Helper lemmas -/

theorem find?_single {α : Type} (f : α → Bool) (a : α) :
    List.find? f [a] = if f a then some a else none := by
  cases h : f a <;> simp [List.find?, h]

theorem foldl_fixed {f : Db → Nat → Db} {d : Db} (h : ∀ t, f d t = d) :
    ∀ ts : List Nat, ts.foldl f d = d := by
  intro ts
  induction ts with
  | nil => rfl
  | cons t ts ih => simpa [List.foldl_cons, h t] using ih

/-! ## C3 — refund-policy boundaries -/

/-- C3: the policy decision at the claim's three boundary ages (with
`completedAt = 0`, ages in milliseconds).  At 3h59m59s the decision is
AutoRefund and at exactly 4h it is RequiresApproval, as claimed; but at
7d + 1s the code still answers RequiresApproval rather than failing
with RefundWindowExpired, because expiry requires
`floor(floor(age/1h)/24) > 7`, i.e. age ≥ 8 days: the window closes at
exactly 8 days (691200000 ms), contradicting the code's own
"must be within 7 days" error message. -/
theorem C3_policy_boundaries :
    refundPolicy 0 14399000 = .ok .AutoRefund
    ∧ refundPolicy 0 14400000 = .ok .RequiresApproval
    ∧ refundPolicy 0 604801000 = .ok .RequiresApproval
    ∧ refundPolicy 0 691199999 = .ok .RequiresApproval
    ∧ refundPolicy 0 691200000
        = .error ⟨"Refund window expired (must be within 7 days)", 400⟩ := by
  exact ⟨rfl, rfl, rfl, rfl, rfl⟩

/-! ## C8 — webhook signature gate -/

/-- C8: a webhook request with a missing signature header, or one whose
signature verification fails, is rejected with a non-2xx response, and
the outcome is independent of the entire database state (no
PaymentRecord, Booking or RefundRequest is read or written); the
service dispatcher is never reached. -/
theorem C8_signature_gate (db db' : Db) (ws ks : Bool) (sig : Option String)
    (ev : Except String StripeEvent) (now now' : Nat)
    (h : sig = none ∨ ∃ m, ev = Except.error m) :
    rejectedNon2xx (controllerHandleWebhook db ws ks sig ev now)
    ∧ controllerHandleWebhook db ws ks sig ev now
        = controllerHandleWebhook db' ws ks sig ev now' := by
  rcases h with hsig | ⟨m, hev⟩
  · subst hsig
    cases ws <;> cases ks <;> simp [controllerHandleWebhook, rejectedNon2xx]
  · subst hev
    cases ws <;> cases ks <;> cases sig <;>
      simp [controllerHandleWebhook, rejectedNon2xx]

theorem C8_signature_gate_witness :
    rejectedNon2xx (controllerHandleWebhook initDb true true none
      (Except.ok (.succeeded "pi_1")) 0)
    ∧ controllerHandleWebhook initDb true true none
        (Except.ok (.succeeded "pi_1")) 0
      = controllerHandleWebhook ⟨[], [], []⟩ true true none
        (Except.ok (.succeeded "pi_1")) 5 :=
  C8_signature_gate initDb ⟨[], [], []⟩ true true none
    (Except.ok (.succeeded "pi_1")) 0 5 (Or.inl rfl)

/-! ## C9 — processRefundRequest guards and reject frame -/

/-- C9: with the refund request looked up by id, (a) a caller other
than the request's landlord gets 403 Unauthorized; (b) a non-PENDING
request gets 400 "Request is already ..."; (c) a reject decision by the
landlord of a PENDING request updates exactly that RefundRequest row
(status REJECTED, rejectedAt stamped, landlordNote set) and leaves the
payments and leases tables unchanged. -/
theorem C9_process_guards (db : Db) (requestId caller : String)
    (approve : Bool) (notes : Option String) (now : Nat) (rid : String)
    (r : RefundRequest)
    (hfind : db.refundRequests.find? (fun x => decide (x.id = requestId)) = some r) :
    (r.landlordId ≠ caller →
      processRefundRequest db requestId caller approve notes now rid
        = .error ⟨"Unauthorized to process this request", 403⟩)
    ∧ (r.status ≠ .PENDING →
      processRefundRequest db requestId r.landlordId approve notes now rid
        = .error ⟨"Request is already " ++ r.status.lower, 400⟩)
    ∧ (r.status = .PENDING →
      processRefundRequest db requestId r.landlordId false notes now rid
        = .ok (updateRefundRequest db requestId (fun x =>
            { x with status := .REJECTED, rejectedAt := some now,
                     landlordNote := notes }), .rejected)
      ∧ (updateRefundRequest db requestId (fun x =>
            { x with status := .REJECTED, rejectedAt := some now,
                     landlordNote := notes })).payments = db.payments
      ∧ (updateRefundRequest db requestId (fun x =>
            { x with status := .REJECTED, rejectedAt := some now,
                     landlordNote := notes })).leases = db.leases) := by
  refine ⟨?_, ?_, ?_⟩
  · intro hne
    simp [processRefundRequest, hfind, hne]
  · intro hst
    simp [processRefundRequest, hfind, hst]
  · intro hpend
    refine ⟨?_, rfl, rfl⟩
    simp [processRefundRequest, hfind, hpend]

theorem C9_process_guards_witness :
    processRefundRequest dbWithPending "RR1" "EVE" true none 0 "re_0"
      = .error ⟨"Unauthorized to process this request", 403⟩ :=
  (C9_process_guards dbWithPending "RR1" "EVE" true none 0 "re_0" pendingReq
    (by rfl)).1 (by decide)

/-! ## C10 — confirmPayment applies no from-state guard -/

/-- C10: whenever the gateway reports the intent as succeeded and a
record matches (bookingId, intentId), `confirmPayment` sets that record
to `completed` with a fresh `completedAt` and the booking to
APPROVED/paid, with no condition on the record's current state — the
record `p` here has an arbitrary status, in particular `refunded`. -/
theorem C10_confirm_overwrites (db : Db) (l : Lease) (p : StripePayment)
    (sentIntentId : String) (now : Nat)
    (hl : db.leases = [l]) (hp : db.payments = [p]) (hbk : p.bookingId = l.id)
    (hsplit : extractIntentId sentIntentId = p.paymentIntentId) :
    confirmPayment db p.bookingId sentIntentId p.userId "succeeded" now
      = .ok (⟨[{ l with status := .APPROVED, paymentStatus := .paid }],
              [{ p with status := .completed, completedAt := some now }],
              db.refundRequests⟩,
             ⟨p.id, p.bookingId, p.amount, .completed, some now⟩) := by
  simp [confirmPayment, hsplit, hp, hl, find?_single, updatePayment, updateLease, hbk]

theorem C10_confirm_overwrites_witness :
    confirmPayment refundedDb refundedPayment.bookingId "pi_1_secret_xyz"
        refundedPayment.userId "succeeded" 11
      = .ok (⟨[{ refundedLease with status := .APPROVED, paymentStatus := .paid }],
              [{ refundedPayment with status := .completed, completedAt := some 11 }],
              refundedDb.refundRequests⟩,
             ⟨refundedPayment.id, refundedPayment.bookingId,
              refundedPayment.amount, .completed, some 11⟩) :=
  C10_confirm_overwrites refundedDb refundedLease refundedPayment
    "pi_1_secret_xyz" 11 rfl rfl rfl rfl

/-! ## C2 — idempotent `completed` webhook -/

/-- C2: delivering the `payment_intent.succeeded` webhook for a charge
whose record is `pending` moves the record to `completed` and the
booking to APPROVED/paid; delivering it any number of further times (at
any timestamps) changes nothing, and such a redelivery is still
acknowledged by the controller with 200 `{received: true}`. -/
theorem C2_success_webhook_idempotent (db : Db) (l : Lease) (p : StripePayment)
    (i : String) (t1 t2 : Nat) (ts : List Nat)
    (hl : db.leases = [l]) (hp : db.payments = [p]) (hi : p.paymentIntentId = i)
    (hpend : p.status = .pending) (hbk : p.bookingId = l.id) :
    (handlePaymentSuccess db i t1).payments
        = [{ p with status := .completed, completedAt := some t1 }]
    ∧ (handlePaymentSuccess db i t1).leases
        = [{ l with status := .APPROVED, paymentStatus := .paid }]
    ∧ (t1 :: ts).foldl (fun d t => handlePaymentSuccess d i t) db
        = handlePaymentSuccess db i t1
    ∧ controllerHandleWebhook (handlePaymentSuccess db i t1) true true
        (some "sig") (Except.ok (.succeeded i)) t2
      = .ok (handlePaymentSuccess db i t1, ⟨true⟩) := by
  have hstep : handlePaymentSuccess db i t1
      = ⟨[{ l with status := .APPROVED, paymentStatus := .paid }],
         [{ p with status := .completed, completedAt := some t1 }],
         db.refundRequests⟩ := by
    simp [handlePaymentSuccess, hp, hl, find?_single, hi, hpend,
      updatePayment, updateLease, hbk]
  have hfix : ∀ t, handlePaymentSuccess
      (⟨[{ l with status := .APPROVED, paymentStatus := .paid }],
        [{ p with status := .completed, completedAt := some t1 }],
        db.refundRequests⟩ : Db) i t
      = ⟨[{ l with status := .APPROVED, paymentStatus := .paid }],
         [{ p with status := .completed, completedAt := some t1 }],
         db.refundRequests⟩ := by
    intro t
    simp [handlePaymentSuccess, find?_single, hi]
  refine ⟨by rw [hstep], by rw [hstep], ?_, ?_⟩
  · rw [List.foldl_cons, hstep, foldl_fixed hfix ts]
  · simp only [controllerHandleWebhook, handleWebhook]
    rw [hstep, hfix t2]
    simp

theorem C2_success_webhook_idempotent_witness :
    (handlePaymentSuccess initDb "pi_1" 0).payments
        = [{ payment0 with status := .completed, completedAt := some 0 }]
    ∧ (handlePaymentSuccess initDb "pi_1" 0).leases
        = [{ lease0 with status := .APPROVED, paymentStatus := .paid }]
    ∧ ([0, 1, 2] : List Nat).foldl
        (fun d t => handlePaymentSuccess d "pi_1" t) initDb
        = handlePaymentSuccess initDb "pi_1" 0
    ∧ controllerHandleWebhook (handlePaymentSuccess initDb "pi_1" 0) true true
        (some "sig") (Except.ok (.succeeded "pi_1")) 3
      = .ok (handlePaymentSuccess initDb "pi_1" 0, ⟨true⟩) :=
  C2_success_webhook_idempotent initDb lease0 payment0 "pi_1" 0 3 [1, 2]
    rfl rfl rfl rfl rfl

/-! ## C4 — `failed` after `completed` -/

/-- C4 counterexample: with the payment record already `completed`, the
`payment_intent.payment_failed` webhook is not rejected: the record's
state is overwritten to `failed` (it does not keep `completed`), though
the booking is indeed untouched. -/
theorem C4_counterexample :
    paymentCompleted.status = .completed
    ∧ (handlePaymentFailure paidDb "pi_1").payments
        = [{ paymentCompleted with status := .failed }]
    ∧ PayState.failed ≠ PayState.completed
    ∧ (handlePaymentFailure paidDb "pi_1").leases = paidDb.leases := by
  exact ⟨rfl, rfl, by decide, rfl⟩

/-- C4 (amended): `handlePaymentFailure` has no from-state guard — for
any found record, whatever its state (in particular `completed`), the
record is set to `failed`; the lease and refund-request tables are
unchanged. -/
theorem C4_failed_event_no_guard (db : Db) (p : StripePayment) (i : String)
    (hp : db.payments = [p]) (hi : p.paymentIntentId = i) :
    (handlePaymentFailure db i).payments = [{ p with status := .failed }]
    ∧ (handlePaymentFailure db i).leases = db.leases
    ∧ (handlePaymentFailure db i).refundRequests = db.refundRequests := by
  refine ⟨?_, ?_, ?_⟩ <;>
    simp [handlePaymentFailure, hp, find?_single, hi, updatePayment]

/-! ## C5 — creating a charge intent with an existing record -/

/-- C5 counterexample: with a `pending` record already present for the
booking, `createPaymentSheet` does not fail with any ConflictError — it
succeeds, reusing the existing record (new intent id, refreshed
amount); and with the record in `processing` it succeeds too, this time
adding a second record for the booking. -/
theorem C5_counterexample :
    payment0.status = .pending
    ∧ createPaymentSheet initDb "L1" "T1" true "pi_2" "P2"
        = .ok (⟨[lease0],
                [{ payment0 with paymentIntentId := "pi_2", amount := 100 }],
                []⟩, "P1")
    ∧ createPaymentSheet processingDb "L1" "T1" true "pi_2" "P2"
        = .ok (⟨[lease0],
                [{ payment0 with status := .processing },
                 { id := "P2", bookingId := "L1", userId := "T1", amount := 100, currency := "myr", paymentIntentId := "pi_2", status := .pending, completedAt := none, refundedAt := none }],
                []⟩, "P2")
    ∧ processingDb.payments.length = 1 := by
  exact ⟨rfl, rfl, rfl, rfl⟩

/-- C5 (amended): for a booking owned by the caller and not yet paid,
`createPaymentSheet` never raises a conflict: if a `pending` record
exists it is reused (its intent id and amount updated, no new row); if
the existing record is `processing` or `requires_action` it is ignored
and a second, new `pending` row is appended; the only payment-related
refusal is 400 "Booking already paid" when the booking's paymentStatus
is `paid`. -/
theorem C5_payment_sheet_no_conflict (db : Db) (l : Lease) (p : StripePayment)
    (u ni np : String)
    (hl : db.leases = [l]) (hp : db.payments = [p]) (hbk : p.bookingId = l.id)
    (hu : l.tenantId = u) :
    (p.status = .pending → l.paymentStatus ≠ .paid →
      createPaymentSheet db l.id u true ni np
        = .ok (⟨db.leases,
                [{ p with paymentIntentId := ni, amount := l.totalPrice }],
                db.refundRequests⟩, p.id))
    ∧ ((p.status = .processing ∨ p.status = .requires_action) →
        l.paymentStatus ≠ .paid →
      createPaymentSheet db l.id u true ni np
        = .ok (⟨db.leases,
                db.payments ++
                  [{ id := np, bookingId := l.id, userId := u, amount := l.totalPrice, currency := "myr", paymentIntentId := ni, status := .pending, completedAt := none, refundedAt := none }],
                db.refundRequests⟩, np))
    ∧ (l.paymentStatus = .paid →
      createPaymentSheet db l.id u true ni np
        = .error ⟨"Booking already paid", 400⟩) := by
  refine ⟨?_, ?_, ?_⟩
  · intro hpend hnp
    simp [createPaymentSheet, hl, hp, find?_single, hu, hnp, hbk, hpend,
      updatePayment]
  · intro hst hnp
    rcases hst with hst | hst <;>
      simp [createPaymentSheet, hl, hp, find?_single, hu, hnp, hbk, hst]
  · intro hpaid
    simp [createPaymentSheet, hl, hp, find?_single, hu, hpaid]

theorem C5_payment_sheet_no_conflict_witness :
    createPaymentSheet initDb "L1" "T1" true "pi_2" "P2"
      = .ok (⟨initDb.leases,
              [{ payment0 with paymentIntentId := "pi_2", amount := lease0.totalPrice }],
              initDb.refundRequests⟩, "P1") :=
  (C5_payment_sheet_no_conflict initDb lease0 payment0 "T1" "pi_2" "P2"
    rfl rfl rfl rfl).1 rfl (by decide)

/-! ## C6 — booking outcome of a refund -/

/-- C6 counterexample: the `charge.refunded` webhook moves the payment
record to `refunded` but sets the booking's status to `REJECTED`, not
`REFUNDED` (paymentStatus does become `refunded`). -/
theorem C6_counterexample :
    (handleRefund paidDb "pi_1" 3).payments
      = [{ paymentCompleted with status := .refunded, refundedAt := some 3 }]
    ∧ (handleRefund paidDb "pi_1" 3).leases
      = [{ leasePaid with status := .REJECTED, paymentStatus := .refunded }]
    ∧ LeaseStatus.REJECTED ≠ LeaseStatus.REFUNDED := by
  exact ⟨rfl, rfl, by decide⟩

/-- C6 (amended): when a payment record transitions to `refunded`
through the auto-refund path of `requestRefund` or through refund
approval in `processRefundRequest`, the booking becomes
REFUNDED/refunded; but through the `charge.refunded` webhook the
booking becomes REJECTED (with paymentStatus `refunded`). -/
theorem C6_refund_outcomes (db : Db) (l : Lease) (p : StripePayment)
    (r : RefundRequest) (c : Nat)
    (hl : db.leases = [l]) (hp : db.payments = [p]) (hr : db.refundRequests = [r])
    (hbk : p.bookingId = l.id) (hcomp : p.status = .completed)
    (hcAt : p.completedAt = some c)
    (hreq : r.leaseId = l.id) (hpend : r.status = .PENDING) :
    requestRefund db l.id p.userId none c "re_1" "rr_new"
      = .ok (⟨[{ l with status := .REFUNDED, paymentStatus := .refunded, cancelledAt := some c, cancellationReason := some "Refund requested within 4 hours" }],
              [{ p with status := .refunded, refundedAt := some c }],
              [r]⟩, .auto "re_1" p.amount)
    ∧ processRefundRequest db r.id r.landlordId true none 9 "re_2"
      = .ok (⟨[{ l with status := .REFUNDED, paymentStatus := .refunded, cancelledAt := some 9, cancellationReason := some "Refund approved by landlord: " }],
              [{ p with status := .refunded, refundedAt := some 9 }],
              [{ r with status := .APPROVED, approvedAt := some 9, landlordNote := none }]⟩, .approved "re_2")
    ∧ handleRefund db p.paymentIntentId 7
      = ⟨[{ l with status := .REJECTED, paymentStatus := .refunded }],
         [{ p with status := .refunded, refundedAt := some 7 }],
         [r]⟩ := by
  refine ⟨?_, ?_, ?_⟩
  · simp [requestRefund, hp, hl, hr, find?_single, hbk, hcomp, hcAt,
      refundPolicy, updatePayment, updateLease]
  · simp [processRefundRequest, hp, hl, hr, find?_single, hbk, hcomp, hreq,
      hpend, updatePayment, updateLease, updateRefundRequest]
  · simp [handleRefund, hp, hl, hr, find?_single, hbk, updatePayment,
      updateLease]

theorem C6_refund_outcomes_witness :
    handleRefund dbWithPending "pi_1" 7
      = ⟨[{ leasePaid with status := .REJECTED, paymentStatus := .refunded }],
         [{ paymentCompleted with status := .refunded, refundedAt := some 7 }],
         [pendingReq]⟩ :=
  (C6_refund_outcomes dbWithPending leasePaid paymentCompleted pendingReq 0
    rfl rfl rfl rfl rfl rfl rfl rfl).2.2

/-! ## C7 — at most one PENDING refund request per lease -/

/-- C7 counterexample: `RefundService.createRefundRequest` performs no
check for an existing PENDING request: on a state that already holds
one PENDING request for the lease it succeeds and appends a second,
leaving two PENDING requests for the same lease. -/
theorem C7_counterexample :
    pendingReq.leaseId = "L1" ∧ pendingReq.status = .PENDING
    ∧ createRefundRequest dbWithPending "L1" "T1" "again" "RR2"
        = .ok (⟨[leasePaid], [paymentCompleted], [pendingReq, secondReq]⟩, "RR2")
    ∧ ([pendingReq, secondReq].countP
        (fun x => decide (x.leaseId = "L1" ∧ x.status = .PENDING))) = 2 := by
  exact ⟨rfl, rfl, rfl, rfl⟩

/-- C7 (amended): the payment service's `requestRefund` does guard the
approval path — when a PENDING refund request already exists for the
booking, it fails with 400 ConflictError and creates nothing; the
standalone `RefundService.createRefundRequest` has no such guard, so
the at-most-one-PENDING invariant is not preserved by every
refund-request creation path. -/
theorem C7_pending_guard (db : Db) (bookingId userId : String)
    (reason : Option String) (now : Nat) (rid nrid : String)
    (p : StripePayment) (r0 : RefundRequest)
    (hfind : db.payments.find?
        (fun q => decide (q.bookingId = bookingId) && decide (q.status = PayState.completed))
      = some p)
    (huser : p.userId = userId)
    (hpolicy : refundPolicy (p.completedAt.getD 0) now = .ok .RequiresApproval)
    (hpend : db.refundRequests.find?
        (fun x => decide (x.leaseId = bookingId) && decide (x.status = RefundRequestStatus.PENDING))
      = some r0) :
    requestRefund db bookingId userId reason now rid nrid
      = .error ⟨"A pending refund request already exists", 400⟩ := by
  simp [requestRefund, hfind, huser, hpolicy, hpend]

theorem C7_pending_guard_witness :
    requestRefund dbWithPending "L1" "T1" none 14400000 "re_9" "RR9"
      = .error ⟨"A pending refund request already exists", 400⟩ :=
  C7_pending_guard dbWithPending "L1" "T1" none 14400000 "re_9" "RR9"
    paymentCompleted pendingReq rfl rfl rfl rfl

theorem C4_failed_event_no_guard_witness :
    (handlePaymentFailure paidDb "pi_1").payments
        = [{ paymentCompleted with status := .failed }]
    ∧ (handlePaymentFailure paidDb "pi_1").leases = paidDb.leases
    ∧ (handlePaymentFailure paidDb "pi_1").refundRequests
        = paidDb.refundRequests :=
  C4_failed_event_no_guard paidDb paymentCompleted "pi_1" rfl rfl

/-! ## C1 — consistency invariant over reachable states

`StrongInv` is the inductive strengthening; one preservation lemma per
operation, then induction along `Reachable`. -/

theorem inv_handleSuccess (db : Db) (i : String) (now : Nat)
    (hinv : StrongInv db) : StrongInv (handlePaymentSuccess db i now) := by
  obtain ⟨l, p, hl, hp, h1, h2, h3⟩ := hinv
  by_cases hi : p.paymentIntentId = i
  case neg =>
    have hid : handlePaymentSuccess db i now = db := by
      simp [handlePaymentSuccess, hp, find?_single, hi]
    rw [hid]; exact ⟨l, p, hl, hp, h1, h2, h3⟩
  case pos =>
    by_cases hpend : p.status = .pending
    case neg =>
      have hid : handlePaymentSuccess db i now = db := by
        simp [handlePaymentSuccess, hp, find?_single, hi, hpend]
      rw [hid]; exact ⟨l, p, hl, hp, h1, h2, h3⟩
    case pos =>
      by_cases hb : l.id = p.bookingId
      case pos =>
        refine ⟨{ l with status := .APPROVED, paymentStatus := .paid },
                { p with status := .completed, completedAt := some now },
                ?_, ?_, ?_, ?_, ?_⟩
        · simp [handlePaymentSuccess, hp, hl, find?_single, hi, hpend,
            updatePayment, updateLease, hb]
        · simp [handlePaymentSuccess, hp, hl, find?_single, hi, hpend,
            updatePayment, updateLease]
        · intro hq; exact absurd hq (by simp)
        · intro _; rfl
        · intro hR; exact absurd hR (by simp)
      case neg =>
        refine ⟨l, { p with status := .completed, completedAt := some now },
                ?_, ?_, ?_, h2, h3⟩
        · simp [handlePaymentSuccess, hp, hl, find?_single, hi, hpend,
            updatePayment, updateLease, hb]
        · simp [handlePaymentSuccess, hp, hl, find?_single, hi, hpend,
            updatePayment, updateLease]
        · intro hq; exact absurd hq (by simp)

theorem inv_handleProcessing (db : Db) (i : String)
    (hinv : StrongInv db) : StrongInv (handlePaymentProcessing db i) := by
  obtain ⟨l, p, hl, hp, h1, h2, h3⟩ := hinv
  by_cases hi : p.paymentIntentId = i
  case neg =>
    have hid : handlePaymentProcessing db i = db := by
      simp [handlePaymentProcessing, hp, find?_single, hi]
    rw [hid]; exact ⟨l, p, hl, hp, h1, h2, h3⟩
  case pos =>
    by_cases hpend : p.status = .pending
    case neg =>
      have hid : handlePaymentProcessing db i = db := by
        simp [handlePaymentProcessing, hp, find?_single, hi, hpend]
      rw [hid]; exact ⟨l, p, hl, hp, h1, h2, h3⟩
    case pos =>
      by_cases hb : l.id = p.bookingId
      case pos =>
        refine ⟨{ l with paymentStatus := .processing },
                { p with status := .processing }, ?_, ?_, ?_, ?_, ?_⟩
        · simp [handlePaymentProcessing, hp, hl, find?_single, hi, hpend,
            updatePayment, updateLease, hb]
        · simp [handlePaymentProcessing, hp, hl, find?_single, hi, hpend,
            updatePayment, updateLease]
        · intro hq; exact absurd hq (by simp)
        · intro hA; exact absurd ((h1 hpend).symm.trans hA) (by decide)
        · intro hR; exact absurd ((h1 hpend).symm.trans hR) (by decide)
      case neg =>
        refine ⟨l, { p with status := .processing }, ?_, ?_, ?_, h2, h3⟩
        · simp [handlePaymentProcessing, hp, hl, find?_single, hi, hpend,
            updatePayment, updateLease, hb]
        · simp [handlePaymentProcessing, hp, hl, find?_single, hi, hpend,
            updatePayment, updateLease]
        · intro hq; exact absurd hq (by simp)

theorem inv_handleFailure (db : Db) (i : String)
    (hinv : StrongInv db) : StrongInv (handlePaymentFailure db i) := by
  obtain ⟨l, p, hl, hp, h1, h2, h3⟩ := hinv
  by_cases hi : p.paymentIntentId = i
  case neg =>
    have hid : handlePaymentFailure db i = db := by
      simp [handlePaymentFailure, hp, find?_single, hi]
    rw [hid]; exact ⟨l, p, hl, hp, h1, h2, h3⟩
  case pos =>
    refine ⟨l, { p with status := .failed }, ?_, ?_, ?_, h2, h3⟩
    · simp [handlePaymentFailure, hp, hl, find?_single, hi, updatePayment]
    · simp [handlePaymentFailure, hp, hl, find?_single, hi, updatePayment]
    · intro hq; exact absurd hq (by simp)

theorem inv_handleCanceled (db : Db) (i : String)
    (hinv : StrongInv db) : StrongInv (handlePaymentCanceled db i) := by
  obtain ⟨l, p, hl, hp, h1, h2, h3⟩ := hinv
  by_cases hi : p.paymentIntentId = i
  case neg =>
    have hid : handlePaymentCanceled db i = db := by
      simp [handlePaymentCanceled, hp, find?_single, hi]
    rw [hid]; exact ⟨l, p, hl, hp, h1, h2, h3⟩
  case pos =>
    by_cases hpend : p.status = .pending
    case neg =>
      have hid : handlePaymentCanceled db i = db := by
        simp [handlePaymentCanceled, hp, find?_single, hi, hpend]
      rw [hid]; exact ⟨l, p, hl, hp, h1, h2, h3⟩
    case pos =>
      by_cases hb : l.id = p.bookingId
      case pos =>
        refine ⟨{ l with paymentStatus := .canceled },
                { p with status := .canceled }, ?_, ?_, ?_, ?_, ?_⟩
        · simp [handlePaymentCanceled, hp, hl, find?_single, hi, hpend,
            updatePayment, updateLease, hb]
        · simp [handlePaymentCanceled, hp, hl, find?_single, hi, hpend,
            updatePayment, updateLease]
        · intro hq; exact absurd hq (by simp)
        · intro hA; exact absurd ((h1 hpend).symm.trans hA) (by decide)
        · intro _; exact Or.inr (Or.inl rfl)
      case neg =>
        refine ⟨l, { p with status := .canceled }, ?_, ?_, ?_, h2, h3⟩
        · simp [handlePaymentCanceled, hp, hl, find?_single, hi, hpend,
            updatePayment, updateLease, hb]
        · simp [handlePaymentCanceled, hp, hl, find?_single, hi, hpend,
            updatePayment, updateLease]
        · intro hq; exact absurd hq (by simp)

theorem inv_handleRequiresAction (db : Db) (i : String)
    (hinv : StrongInv db) : StrongInv (handlePaymentRequiresAction db i) := by
  obtain ⟨l, p, hl, hp, h1, h2, h3⟩ := hinv
  by_cases hi : p.paymentIntentId = i
  case neg =>
    have hid : handlePaymentRequiresAction db i = db := by
      simp [handlePaymentRequiresAction, hp, find?_single, hi]
    rw [hid]; exact ⟨l, p, hl, hp, h1, h2, h3⟩
  case pos =>
    by_cases hpend : p.status = .pending
    case neg =>
      have hid : handlePaymentRequiresAction db i = db := by
        simp [handlePaymentRequiresAction, hp, find?_single, hi, hpend]
      rw [hid]; exact ⟨l, p, hl, hp, h1, h2, h3⟩
    case pos =>
      refine ⟨l, { p with status := .requires_action }, ?_, ?_, ?_, h2, h3⟩
      · simp [handlePaymentRequiresAction, hp, hl, find?_single, hi, hpend,
          updatePayment]
      · simp [handlePaymentRequiresAction, hp, hl, find?_single, hi, hpend,
          updatePayment]
      · intro hq; exact absurd hq (by simp)

theorem inv_handleRefund (db : Db) (i : String) (now : Nat)
    (hinv : StrongInv db) : StrongInv (handleRefund db i now) := by
  obtain ⟨l, p, hl, hp, h1, h2, h3⟩ := hinv
  by_cases hi : p.paymentIntentId = i
  case neg =>
    have hid : handleRefund db i now = db := by
      simp [handleRefund, hp, find?_single, hi]
    rw [hid]; exact ⟨l, p, hl, hp, h1, h2, h3⟩
  case pos =>
    by_cases hb : l.id = p.bookingId
    case pos =>
      refine ⟨{ l with status := .REJECTED, paymentStatus := .refunded },
              { p with status := .refunded, refundedAt := some now },
              ?_, ?_, ?_, ?_, ?_⟩
      · simp [handleRefund, hp, hl, find?_single, hi, updatePayment,
          updateLease, hb]
      · simp [handleRefund, hp, hl, find?_single, hi, updatePayment,
          updateLease]
      · intro hq; exact absurd hq (by simp)
      · intro hA; exact absurd hA (by simp)
      · intro hR; exact absurd hR (by simp)
    case neg =>
      refine ⟨l, { p with status := .refunded, refundedAt := some now },
              ?_, ?_, ?_, h2, h3⟩
      · simp [handleRefund, hp, hl, find?_single, hi, updatePayment,
          updateLease, hb]
      · simp [handleRefund, hp, hl, find?_single, hi, updatePayment,
          updateLease]
      · intro hq; exact absurd hq (by simp)

theorem inv_webhook (db : Db) (ev : StripeEvent) (now : Nat)
    (hinv : StrongInv db) : StrongInv (handleWebhook db ev now) := by
  cases ev with
  | succeeded i => exact inv_handleSuccess db i now hinv
  | processing i => exact inv_handleProcessing db i hinv
  | payment_failed i => exact inv_handleFailure db i hinv
  | canceled i => exact inv_handleCanceled db i hinv
  | requires_action i => exact inv_handleRequiresAction db i hinv
  | charge_refunded i => exact inv_handleRefund db i now hinv
  | other t => exact hinv

theorem inv_confirm {db db' : Db} {b i u st : String} {now : Nat}
    {r : ConfirmResult} (hinv : StrongInv db)
    (h : confirmPayment db b i u st now = .ok (db', r)) : StrongInv db' := by
  obtain ⟨l, p, hl, hp, h1, h2, h3⟩ := hinv
  by_cases hst : st = "succeeded"
  case neg =>
    have hbad : confirmPayment db b i u st now
        = .error ⟨"Payment not successful", 400⟩ := by
      simp [confirmPayment, hst]
    rw [hbad] at h; exact absurd h (by simp)
  case pos =>
    by_cases hc : p.bookingId = b ∧ p.paymentIntentId = extractIntentId i
    case neg =>
      have hbad : confirmPayment db b i u st now
          = .error ⟨"Payment record not found", 404⟩ := by
        simp [confirmPayment, hst, hp, find?_single, hc]
      rw [hbad] at h; exact absurd h (by simp)
    case pos =>
      obtain ⟨hpb, hpi⟩ := hc
      by_cases hu : p.userId = u
      case neg =>
        have hbad : confirmPayment db b i u st now
            = .error ⟨"Unauthorized access to payment", 403⟩ := by
          simp [confirmPayment, hst, hp, find?_single, hpb, hpi, hu]
        rw [hbad] at h; exact absurd h (by simp)
      case pos =>
        by_cases hb : l.id = b
        case pos =>
          have hok : confirmPayment db b i u st now
              = .ok (⟨[{ l with status := .APPROVED, paymentStatus := .paid }],
                      [{ p with status := .completed, completedAt := some now }],
                      db.refundRequests⟩,
                     ⟨p.id, b, p.amount, .completed, some now⟩) := by
            simp [confirmPayment, hst, hp, hl, find?_single, hpb, hpi, hu, hb,
              updatePayment, updateLease]
          rw [hok] at h
          simp only [Except.ok.injEq, Prod.mk.injEq] at h
          obtain ⟨hdb, -⟩ := h
          subst hdb
          refine ⟨_, _, rfl, rfl, ?_, ?_, ?_⟩
          · intro hq; exact absurd hq (by simp)
          · intro _; rfl
          · intro hR; exact absurd hR (by simp)
        case neg =>
          have hok : confirmPayment db b i u st now
              = .ok (⟨[l],
                      [{ p with status := .completed, completedAt := some now }],
                      db.refundRequests⟩,
                     ⟨p.id, b, p.amount, .completed, some now⟩) := by
            simp [confirmPayment, hst, hp, hl, find?_single, hpb, hpi, hu, hb,
              updatePayment, updateLease]
          rw [hok] at h
          simp only [Except.ok.injEq, Prod.mk.injEq] at h
          obtain ⟨hdb, -⟩ := h
          subst hdb
          refine ⟨_, _, rfl, rfl, ?_, h2, h3⟩
          intro hq; exact absurd hq (by simp)

theorem inv_cancel {db db' : Db} {ipid u : String} {now : Nat} {bc : Bool}
    (hinv : StrongInv db)
    (h : cancelPayment db ipid u now = .ok (db', bc)) : StrongInv db' := by
  obtain ⟨l, p, hl, hp, h1, h2, h3⟩ := hinv
  by_cases hpi : p.paymentIntentId = ipid
  case neg =>
    have hbad : cancelPayment db ipid u now
        = .error ⟨"Payment not found", 404⟩ := by
      simp [cancelPayment, hp, find?_single, hpi]
    rw [hbad] at h; exact absurd h (by simp)
  case pos =>
    by_cases hu : p.userId = u
    case neg =>
      have hbad : cancelPayment db ipid u now
          = .error ⟨"Unauthorized access to payment", 403⟩ := by
        simp [cancelPayment, hp, find?_single, hpi, hu]
      rw [hbad] at h; exact absurd h (by simp)
    case pos =>
      by_cases hpend : p.status = .pending
      case neg =>
        have hbad : cancelPayment db ipid u now
            = .error ⟨"Cannot cancel completed payment", 400⟩ := by
          simp [cancelPayment, hp, find?_single, hpi, hu, hpend]
        rw [hbad] at h; exact absurd h (by simp)
      case pos =>
        by_cases hb : l.id = p.bookingId
        case pos =>
          by_cases hstat : l.status = .PENDING ∨ l.status = .APPROVED
          case pos =>
            have hok : cancelPayment db ipid u now
                = .ok (⟨[{ l with status := .REFUNDED, cancelledAt := some now, cancellationReason := some "Payment cancelled by user", paymentStatus := .failed }],
                        [{ p with status := .failed }],
                        db.refundRequests⟩, true) := by
              simp [cancelPayment, hp, hl, find?_single, hpi, hu, hpend, hb,
                hstat, updatePayment, updateLease]
            rw [hok] at h
            simp only [Except.ok.injEq, Prod.mk.injEq] at h
            obtain ⟨hdb, -⟩ := h
            subst hdb
            refine ⟨_, _, rfl, rfl, ?_, ?_, ?_⟩
            · intro hq; exact absurd hq (by simp)
            · intro hA; exact absurd hA (by simp)
            · intro _; exact Or.inr (Or.inr rfl)
          case neg =>
            have hok : cancelPayment db ipid u now
                = .ok (⟨[l], [{ p with status := .failed }],
                        db.refundRequests⟩, true) := by
              simp [cancelPayment, hp, hl, find?_single, hpi, hu, hpend, hb,
                hstat, updatePayment, updateLease]
            rw [hok] at h
            simp only [Except.ok.injEq, Prod.mk.injEq] at h
            obtain ⟨hdb, -⟩ := h
            subst hdb
            refine ⟨_, _, rfl, rfl, ?_, h2, h3⟩
            intro hq; exact absurd hq (by simp)
        case neg =>
          have hok : cancelPayment db ipid u now
              = .ok (⟨[l], [{ p with status := .failed }],
                      db.refundRequests⟩, true) := by
            simp [cancelPayment, hp, hl, find?_single, hpi, hu, hpend, hb,
              updatePayment, updateLease]
          rw [hok] at h
          simp only [Except.ok.injEq, Prod.mk.injEq] at h
          obtain ⟨hdb, -⟩ := h
          subst hdb
          refine ⟨_, _, rfl, rfl, ?_, h2, h3⟩
          intro hq; exact absurd hq (by simp)

theorem inv_refund {db db' : Db} {b u : String} {reason : Option String}
    {now : Nat} {rid nrid : String} {r : RefundResult} (hinv : StrongInv db)
    (h : requestRefund db b u reason now rid nrid = .ok (db', r)) :
    StrongInv db' := by
  obtain ⟨l, p, hl, hp, h1, h2, h3⟩ := hinv
  by_cases hc : p.bookingId = b ∧ p.status = .completed
  case neg =>
    have hbad : requestRefund db b u reason now rid nrid
        = .error ⟨"Payment not found or not completed", 404⟩ := by
      simp [requestRefund, hp, find?_single, hc]
    rw [hbad] at h; exact absurd h (by simp)
  case pos =>
    obtain ⟨hpb, hpc⟩ := hc
    by_cases hu : p.userId = u
    case neg =>
      have hbad : requestRefund db b u reason now rid nrid
          = .error ⟨"Unauthorized access to payment", 403⟩ := by
        simp [requestRefund, hp, find?_single, hpb, hpc, hu]
      rw [hbad] at h; exact absurd h (by simp)
    case pos =>
      cases hpol : refundPolicy (p.completedAt.getD 0) now with
      | error e =>
        have hbad : requestRefund db b u reason now rid nrid = .error e := by
          simp [requestRefund, hp, find?_single, hpb, hpc, hu, hpol]
        rw [hbad] at h; exact absurd h (by simp)
      | ok d =>
        cases d with
        | AutoRefund =>
          by_cases hb : l.id = b
          case pos =>
            have hok : requestRefund db b u reason now rid nrid
                = .ok (⟨[{ l with status := .REFUNDED, paymentStatus := .refunded, cancelledAt := some now, cancellationReason := some (reason.getD "Refund requested within 4 hours") }],
                        [{ p with status := .refunded, refundedAt := some now }],
                        db.refundRequests⟩, .auto rid p.amount) := by
              simp [requestRefund, hp, hl, find?_single, hpb, hpc, hu, hpol,
                hb, updatePayment, updateLease]
            rw [hok] at h
            simp only [Except.ok.injEq, Prod.mk.injEq] at h
            obtain ⟨hdb, -⟩ := h
            subst hdb
            refine ⟨_, _, rfl, rfl, ?_, ?_, ?_⟩
            · intro hq; exact absurd hq (by simp)
            · intro hA; exact absurd hA (by simp)
            · intro _; exact Or.inl rfl
          case neg =>
            have hok : requestRefund db b u reason now rid nrid
                = .ok (⟨[l], [{ p with status := .refunded, refundedAt := some now }],
                        db.refundRequests⟩, .auto rid p.amount) := by
              simp [requestRefund, hp, hl, find?_single, hpb, hpc, hu, hpol,
                hb, updatePayment, updateLease]
            rw [hok] at h
            simp only [Except.ok.injEq, Prod.mk.injEq] at h
            obtain ⟨hdb, -⟩ := h
            subst hdb
            refine ⟨_, _, rfl, rfl, ?_, h2, h3⟩
            intro hq; exact absurd hq (by simp)
        | RequiresApproval =>
          cases hf : db.refundRequests.find?
              (fun x => decide (x.leaseId = b) &&
                decide (x.status = RefundRequestStatus.PENDING)) with
          | some r0 =>
            have hbad : requestRefund db b u reason now rid nrid
                = .error ⟨"A pending refund request already exists", 400⟩ := by
              simp [requestRefund, hp, find?_single, hpb, hpc, hu, hpol, hf]
            rw [hbad] at h; exact absurd h (by simp)
          | none =>
            have hok : requestRefund db b u reason now rid nrid
                = .ok (⟨db.leases, [p],
                        db.refundRequests ++
                          [{ id := nrid, leaseId := b, requestedBy := u, landlordId := ((db.leases.find? (fun x => decide (x.id = b))).map (fun x => x.landlordId)).getD "", amount := p.amount, reason := reason.getD "Customer requested refund (> 4 hours)", status := .PENDING, approvedAt := none, rejectedAt := none, landlordNote := none }]⟩,
                       .pendingApproval nrid) := by
              simp [requestRefund, hp, find?_single, hpb, hpc, hu, hpol, hf]
            rw [hok] at h
            simp only [Except.ok.injEq, Prod.mk.injEq] at h
            obtain ⟨hdb, -⟩ := h
            subst hdb
            exact ⟨l, p, by simp [hl], rfl, h1, h2, h3⟩

theorem inv_process {db db' : Db} {rid lid : String} {approve : Bool}
    {notes : Option String} {now : Nat} {srid : String} {r : ProcessResult}
    (hinv : StrongInv db)
    (h : processRefundRequest db rid lid approve notes now srid
      = .ok (db', r)) : StrongInv db' := by
  obtain ⟨l, p, hl, hp, h1, h2, h3⟩ := hinv
  cases hf : db.refundRequests.find? (fun x => decide (x.id = rid)) with
  | none =>
    have hbad : processRefundRequest db rid lid approve notes now srid
        = .error ⟨"Refund request not found", 404⟩ := by
      simp [processRefundRequest, hf]
    rw [hbad] at h; exact absurd h (by simp)
  | some req =>
    by_cases hll : req.landlordId = lid
    case neg =>
      have hbad : processRefundRequest db rid lid approve notes now srid
          = .error ⟨"Unauthorized to process this request", 403⟩ := by
        simp [processRefundRequest, hf, hll]
      rw [hbad] at h; exact absurd h (by simp)
    case pos =>
      by_cases hstat : req.status = .PENDING
      case neg =>
        have hbad : processRefundRequest db rid lid approve notes now srid
            = .error ⟨"Request is already " ++ req.status.lower, 400⟩ := by
          simp [processRefundRequest, hf, hll, hstat]
        rw [hbad] at h; exact absurd h (by simp)
      case pos =>
        cases approve with
        | false =>
          have hok : processRefundRequest db rid lid false notes now srid
              = .ok (updateRefundRequest db rid (fun x =>
                  { x with status := .REJECTED, rejectedAt := some now, landlordNote := notes }), .rejected) := by
            simp [processRefundRequest, hf, hll, hstat]
          rw [hok] at h
          simp only [Except.ok.injEq, Prod.mk.injEq] at h
          obtain ⟨hdb, -⟩ := h
          subst hdb
          exact ⟨l, p, by simp [updateRefundRequest, hl],
            by simp [updateRefundRequest, hp], h1, h2, h3⟩
        | true =>
          by_cases hpc : p.bookingId = req.leaseId ∧ p.status = .completed
          case neg =>
            have hbad : processRefundRequest db rid lid true notes now srid
                = .error ⟨"Original payment not found or not completed", 404⟩ := by
              simp [processRefundRequest, hf, hll, hstat, hp, find?_single, hpc]
            rw [hbad] at h; exact absurd h (by simp)
          case pos =>
            obtain ⟨hpb, hpcc⟩ := hpc
            by_cases hb : l.id = req.leaseId
            case pos =>
              have hok : processRefundRequest db rid lid true notes now srid
                  = .ok (⟨[{ l with status := .REFUNDED, paymentStatus := .refunded, cancelledAt := some now, cancellationReason := some ("Refund approved by landlord: " ++ notes.getD "") }],
                          [{ p with status := .refunded, refundedAt := some now }],
                          db.refundRequests.map (fun x => if x.id = rid then { x with status := .APPROVED, approvedAt := some now, landlordNote := notes } else x)⟩,
                         .approved srid) := by
                simp [processRefundRequest, hf, hll, hstat, hp, hl,
                  find?_single, hpb, hpcc, hb, updatePayment, updateLease,
                  updateRefundRequest]
              rw [hok] at h
              simp only [Except.ok.injEq, Prod.mk.injEq] at h
              obtain ⟨hdb, -⟩ := h
              subst hdb
              refine ⟨_, _, rfl, rfl, ?_, ?_, ?_⟩
              · intro hq; exact absurd hq (by simp)
              · intro hA; exact absurd hA (by simp)
              · intro _; exact Or.inl rfl
            case neg =>
              have hok : processRefundRequest db rid lid true notes now srid
                  = .ok (⟨[l],
                          [{ p with status := .refunded, refundedAt := some now }],
                          db.refundRequests.map (fun x => if x.id = rid then { x with status := .APPROVED, approvedAt := some now, landlordNote := notes } else x)⟩,
                         .approved srid) := by
                simp [processRefundRequest, hf, hll, hstat, hp, hl,
                  find?_single, hpb, hpcc, hb, updatePayment, updateLease,
                  updateRefundRequest]
              rw [hok] at h
              simp only [Except.ok.injEq, Prod.mk.injEq] at h
              obtain ⟨hdb, -⟩ := h
              subst hdb
              refine ⟨_, _, rfl, rfl, ?_, h2, h3⟩
              intro hq; exact absurd hq (by simp)

/-- C1 counterexample: `cancelPayment` on the freshly created state is
a single reachable step that leaves the booking `REFUNDED` with
paymentStatus `failed` — neither `refunded` nor `canceled`, so the
claimed invariant fails on a reachable state. -/
theorem C1_counterexample :
    cancelPayment initDb "pi_1" "T1" 0 = .ok (cancelledDb, true)
    ∧ Reachable cancelledDb
    ∧ cancelledDb.leases.head?.map (fun l => (l.status, l.paymentStatus))
        = some (.REFUNDED, .failed)
    ∧ LeasePaymentStatus.failed ≠ LeasePaymentStatus.refunded
    ∧ LeasePaymentStatus.failed ≠ LeasePaymentStatus.canceled := by
  refine ⟨rfl, ?_, rfl, by decide, by decide⟩
  exact Relation.ReflTransGen.single
    (Step.cancel initDb cancelledDb "pi_1" "T1" 0 true rfl)

/-- C1 (amended): over every state reachable from the post-creation
state through the payment core's operations, APPROVED implies
paymentStatus `paid`, and REFUNDED implies paymentStatus `refunded`,
`canceled` or `failed` (the `failed` case arising from
`cancelPayment`, which cancels the booking with paymentStatus
`failed`). -/
theorem C1_reachable_invariant (db : Db) (h : Reachable db) :
    ∀ l ∈ db.leases,
      (l.status = .APPROVED → l.paymentStatus = .paid) ∧
      (l.status = .REFUNDED →
        l.paymentStatus = .refunded ∨ l.paymentStatus = .canceled ∨
          l.paymentStatus = .failed) := by
  have hs : StrongInv db := by
    unfold Reachable at h
    induction h with
    | refl => exact ⟨lease0, payment0, rfl, rfl, fun _ => rfl,
        by decide, by decide⟩
    | tail hsteps hstep ih =>
      cases hstep with
      | confirm _ _ _ _ _ _ _ hop => exact inv_confirm ih hop
      | cancel _ _ _ _ _ hop => exact inv_cancel ih hop
      | refund _ _ _ _ _ _ _ _ hop => exact inv_refund ih hop
      | process _ _ _ _ _ _ _ _ hop => exact inv_process ih hop
      | webhook ev n => exact inv_webhook _ ev n ih
  obtain ⟨l0, p0, hl, hp, h1, h2, h3⟩ := hs
  intro l hmem
  rw [hl] at hmem
  simp only [List.mem_singleton] at hmem
  subst hmem
  exact ⟨h2, h3⟩

theorem C1_reachable_invariant_witness :
    (lease0.status = .APPROVED → lease0.paymentStatus = .paid)
    ∧ (lease0.status = .REFUNDED →
        lease0.paymentStatus = .refunded ∨ lease0.paymentStatus = .canceled ∨
          lease0.paymentStatus = .failed) :=
  C1_reachable_invariant initDb Relation.ReflTransGen.refl lease0
    (by simp [initDb])

end Payments
